import Mathlib

/-!
Verification of the Itlg-autoclaimbot claim scheduler (src/bot.py).

The development shallowly embeds the pure decision logic of the bot:
the claim-outcome/history-entry construction of `core_claim_action` and
`auto_claim_task_function`, the adaptive sleep bucketing of the
auto-claim loop, the start/stop/reconcile task-registry operations, and
the claim-history display slice.  Remote HTTP calls are modelled by
their results (payload present or absent, HTTP status); random uniform
sleeps are modelled by the closed interval they are drawn from.
-/

/-- A balance snapshot as returned by the `get-token` endpoint:
the three tier amounts (`interlinkSilverTokenAmount`,
`interlinkGoldTokenAmount`, `interlinkDiamondTokenAmount`). -/
structure Balances where
  silver : Int
  gold : Int
  diamond : Int
deriving DecidableEq, Repr

/-- The shape of the value found at the `data` key of the
`claim-airdrop` response body, as far as the code inspects it: the code
tests `isinstance(resp.get('data'), bool)`, so all that matters is
whether the value is a boolean, and which one. -/
inductive JVal where
  | jbool (b : Bool)
  | jother
deriving DecidableEq, Repr

/-- The decoded JSON body returned by `api_claim_airdrop`:
`dataField = none` models a body with no `data` key. -/
structure ClaimApiResponse where
  dataField : Option JVal
deriving DecidableEq, Repr

/-- Lines 485–487 / 641–643 of bot.py:
`claim_successful = False`; then if the response is present and its
`data` value is a boolean, `claim_successful = resp.get('data', False)`. -/
def claimSuccessful (resp : Option ClaimApiResponse) : Bool :=
  match resp with
  | none => false
  | some r =>
    match r.dataField with
    | some (JVal.jbool b) => b
    | _ => false

/-- A persisted claim-history entry (bot.py lines 511–521 / 667–677),
without the wall-clock timestamp string. -/
structure HistoryEntry where
  success : Bool
  message : String
  claimed_silver : Int
  claimed_gold : Int
  claimed_diamond : Int
  total_silver_after : Int
  total_gold_after : Int
  total_diamond_after : Int
deriving DecidableEq, Repr

/-- The history-entry construction shared by `core_claim_action`
(bot.py 483–521) and `auto_claim_task_function` (bot.py 639–677).
`resp` is the decoded `claim-airdrop` response, `msg` the message
derived from it, `before` the pre-claim balance snapshot, and
`afterFetch` what the post-claim `get-token` call would return.  The
post-claim balance query only happens when the claim reported success,
so `tokens_after` is `none` whenever the claim failed; the deltas are
initialised to zero and only overwritten from an available after
snapshot; on a successful claim whose after query failed, the message
gains the "gagal memverifikasi saldo baru" suffix. -/
def core_claim_record (resp : Option ClaimApiResponse) (msg : String)
    (before : Balances) (afterFetch : Option Balances) : HistoryEntry :=
  let succ := claimSuccessful resp
  let tokens_after : Option Balances := if succ then afterFetch else none
  let msg' : String :=
    if succ ∧ afterFetch = none then
      msg ++ " (Namun, gagal memverifikasi saldo baru)"
    else msg
  let cs : Int := match tokens_after with
    | some a => a.silver - before.silver
    | none => 0
  let cg : Int := match tokens_after with
    | some a => a.gold - before.gold
    | none => 0
  let cd : Int := match tokens_after with
    | some a => a.diamond - before.diamond
    | none => 0
  { success := succ
    message := msg'
    claimed_silver := if succ then cs else 0
    claimed_gold := if succ then cg else 0
    claimed_diamond := if succ then cd else 0
    total_silver_after := match tokens_after with
      | some a => a.silver
      | none => before.silver
    total_gold_after := match tokens_after with
      | some a => a.gold
      | none => before.gold
    total_diamond_after := match tokens_after with
      | some a => a.diamond
      | none => before.diamond }

example :
    (core_claim_record (some ⟨some (JVal.jbool true)⟩) "ok" ⟨1, 2, 3⟩
      (some ⟨5, 2, 3⟩)).claimed_silver = 4 := by decide

example :
    (core_claim_record (some ⟨some (JVal.jbool true)⟩) "ok" ⟨5, 0, 0⟩
      (some ⟨3, 0, 0⟩)).claimed_silver = -2 := by decide

example :
    (core_claim_record none "x" ⟨1, 2, 3⟩ none).success = false := by decide

/-- Remaining time, in seconds, until the server-declared next eligible
window: `(next_frame_ms - current_time_ms) / 1000` (bot.py 712–714,
exact rational division in place of Python float division). -/
def remainingSec (nextFrame now : Int) : ℚ :=
  ((nextFrame - now : Int) : ℚ) / 1000

/-- The sleep interval (in seconds, as the closed interval the uniform
draw ranges over) chosen by the not-claimable branch of
`auto_claim_task_function` (bot.py 709–741).  The default
uniform(5*60, 10*60) set at the top of the loop body (line 605) applies
when `nextFrame ≤ 0`; otherwise `wait_time_sec = max(0, remaining)` and
the code picks uniform(25*60,35*60) above one hour,
uniform(5*60,10*60) above 15 minutes, `wait + uniform(10,45)` for a
positive wait of at most 15 minutes, and uniform(30,90) when the
schedule is already past (`wait_time_sec = 0`, line 738). -/
def waitSleepRange (nextFrame now : Int) : ℚ × ℚ :=
  if 0 < nextFrame then
    if 0 < max 0 (remainingSec nextFrame now) then
      if 3600 < max 0 (remainingSec nextFrame now) then (25 * 60, 35 * 60)
      else if 15 * 60 < max 0 (remainingSec nextFrame now) then (5 * 60, 10 * 60)
      else (max 0 (remainingSec nextFrame now) + 10,
            max 0 (remainingSec nextFrame now) + 45)
    else (30, 90)
  else (5 * 60, 10 * 60)

/-- The sleep policy exactly as the specification words it, for
comparison with `waitSleepRange`: above one hour uniform[25,35] min,
between 15 min and one hour uniform[5,10] min, below 15 min (including
an already-past window) `remaining + uniform[10,45]` seconds floored at
0, and uniform[5,10] min when `next_eligible_at = 0`. -/
def sleepRangeClaimed (nextFrame now : Int) : ℚ × ℚ :=
  if nextFrame = 0 then (5 * 60, 10 * 60)
  else
    let r : ℚ := remainingSec nextFrame now
    if 3600 < r then (25 * 60, 35 * 60)
    else if 15 * 60 ≤ r then (5 * 60, 10 * 60)
    else (max 0 r + 10, max 0 r + 45)

example : waitSleepRange 10000000 1000 = (1500, 2100) := by
  norm_num [waitSleepRange, remainingSec, Prod.ext_iff]
example : waitSleepRange 500000 0 = (510, 545) := by
  norm_num [waitSleepRange, remainingSec, Prod.ext_iff]
example : waitSleepRange 1000 2000 = (30, 90) := by
  norm_num [waitSleepRange, remainingSec, Prod.ext_iff]
example : sleepRangeClaimed 1000 2000 = (10, 45) := by
  norm_num [sleepRangeClaimed, remainingSec, Prod.ext_iff]
example : waitSleepRange 0 12345 = (300, 600) := by
  norm_num [waitSleepRange, remainingSec, Prod.ext_iff]

/-- The eligibility payload decoded from `check-is-claimable`
(`isClaimable`, `nextFrame`); `nextFrame = 0` means unknown. -/
structure EligPayload where
  isClaimable : Bool
  nextFrame : Int
deriving DecidableEq, Repr

/-- The results of the remote calls one iteration of
`auto_claim_task_function` may perform: the eligibility check (payload
and HTTP status), the pre-claim balance query, the claim submission
(payload and HTTP status) and the post-claim balance query.  A `none`
payload models a call that failed or returned no usable `data`. -/
structure RemoteResults where
  check : Option EligPayload
  checkStatus : Option Int
  balancesBefore : Option Balances
  claimResp : Option ClaimApiResponse
  claimMsg : String
  claimStatus : Option Int
  balancesAfter : Option Balances
deriving DecidableEq, Repr

/-- The observable outcome of one iteration of the
`while user_data.get("auto_claim_active", False)` loop:
how many fatal "Auto-Claim Dihentikan" notifications were sent, how
many extended-wait (HTTP 429) notifications, the persisted
`auto_claim_active` flag after the iteration, whether the loop
terminated (`break` or while-condition false), the interval the
end-of-iteration sleep is drawn from (`none` when terminating), and the
history entry appended, if any. -/
structure IterOutcome where
  fatalNotifs : Nat
  rateLimitNotifs : Nat
  activeAfter : Bool
  terminated : Bool
  sleepRange : Option (ℚ × ℚ)
  recorded : Option HistoryEntry
deriving DecidableEq, Repr

/-- One iteration of the scheduler loop of `auto_claim_task_function`
(bot.py 604–775), as a function of the loop inputs: the persisted
active flag read at the top (line 604), whether the credential is still
present (line 609), the current time in epoch milliseconds, and the
remote-call results.  Branches, in source order: while-condition false
→ terminate; credential gone → ValueError handler (752–755): one fatal
notification, deactivate, break; check status 401 (614–619): one fatal
notification, deactivate, break; claimable (621–707): claim via
`core_claim_record`, with a fatal 401 break when the claim itself came
back 401 (698–703), otherwise uniform(5*60,10*60) (line 705), and a
skip-cycle sleep uniform(3*60,7*60) when the pre-claim balance query
failed (626–629); not claimable (709–741): sleep per `waitSleepRange`;
no payload (742–748): uniform(45*60,75*60) plus one extended-wait
notification on status 429, else the default uniform(5*60,10*60). -/
def loopIteration (activeBefore tokenPresent : Bool) (now : Int)
    (r : RemoteResults) : IterOutcome :=
  if activeBefore = false then
    ⟨0, 0, false, true, none, none⟩
  else if tokenPresent = false then
    ⟨1, 0, false, true, none, none⟩
  else if r.checkStatus = some 401 then
    ⟨1, 0, false, true, none, none⟩
  else
    match r.check with
    | some p =>
      if p.isClaimable then
        match r.balancesBefore with
        | none => ⟨0, 0, true, false, some (3 * 60, 7 * 60), none⟩
        | some before =>
          let entry := core_claim_record r.claimResp r.claimMsg before r.balancesAfter
          if entry.success then
            ⟨0, 0, true, false, some (5 * 60, 10 * 60), some entry⟩
          else if r.claimStatus = some 401 then
            ⟨1, 0, false, true, none, some entry⟩
          else
            ⟨0, 0, true, false, some (5 * 60, 10 * 60), some entry⟩
      else
        ⟨0, 0, true, false, some (waitSleepRange p.nextFrame now), none⟩
    | none =>
      if r.checkStatus = some 429 then
        ⟨0, 1, true, false, some (45 * 60, 75 * 60), none⟩
      else
        ⟨0, 0, true, false, some (5 * 60, 10 * 60), none⟩

/-- Cleanup on loop exit (bot.py 777–779): the task handle is removed
from the `AUTO_CLAIM_TASKS` registry, modelled as a list of user ids
with live handles. -/
def taskCleanup (reg : List Int) (uid : Int) : List Int :=
  if uid ∈ reg then reg.erase uid else reg

example :
    (loopIteration true true 0 ⟨none, some 401, none, none, "m", none, none⟩).fatalNotifs
      = 1 := by decide
example :
    (loopIteration true true 0 ⟨none, some 429, none, none, "m", none, none⟩).sleepRange
      = some (2700, 4500) := by
  norm_num [loopIteration, Prod.ext_iff]
example : taskCleanup [3, 5] 5 = [3] := by decide

/-- The per-user state the start/stop/status operations act on: whether
an auth token is stored, the persisted `auto_claim_active` flag, whether
a live (registered and not done) task handle exists in
`AUTO_CLAIM_TASKS`, and how many task objects for this user are
actually running (a spawned task stays running even if its registry
handle is later overwritten). -/
structure AutoState where
  hasToken : Bool
  active : Bool
  handleLive : Bool
  liveTasks : Nat
deriving DecidableEq, Repr

/-- Result of `core_autoclaim_start`: the new state, whether a new task
was spawned, and whether the call failed for lack of a credential. -/
structure StartOutcome where
  st : AutoState
  spawned : Bool
  noTokenFailure : Bool
deriving DecidableEq, Repr

/-- `core_autoclaim_start` (bot.py 781–802): with no auth token, fail
and change nothing; if the persisted flag is set AND a live
(non-done) handle is registered, no-op; otherwise set the flag, spawn
a fresh task and store its handle (line 799 overwrites any previous
handle without cancelling the task it pointed to). -/
def core_autoclaim_start (s : AutoState) : StartOutcome :=
  if s.hasToken = false then
    ⟨s, false, true⟩
  else if s.active = true ∧ s.handleLive = true then
    ⟨s, false, false⟩
  else
    ⟨{ s with active := true, handleLive := true, liveTasks := s.liveTasks + 1 },
      true, false⟩

/-- Result of `core_autoclaim_stop`: the new state and whether the call
was the "already inactive" no-op. -/
structure StopOutcome where
  st : AutoState
  wasNoop : Bool
deriving DecidableEq, Repr

/-- `core_autoclaim_stop` (bot.py 804–827): if the persisted flag is
clear and no live task is running, no-op; otherwise clear the flag,
cancel the registered task if it is running (awaiting its
termination), and delete the registry handle. -/
def core_autoclaim_stop (s : AutoState) : StopOutcome :=
  if s.active = false ∧ s.handleLive = false then
    ⟨s, true⟩
  else
    ⟨⟨s.hasToken, false, false,
        if s.handleLive then s.liveTasks - 1 else s.liveTasks⟩,
      false⟩

/-- The display slice of `core_history_action` (bot.py 552–553):
`reversed(user_history[-10:])` — the last ten entries of the persisted
history, most recent first. -/
def displayHistory (h : List HistoryEntry) : List HistoryEntry :=
  (h.drop (h.length - 10)).reverse

/-- Appending a claim attempt to the persisted history
(bot.py 523–525 / 679–681): `user_history.append(entry)` followed by
saving the whole list. -/
def appendHistory (h : List HistoryEntry) (e : HistoryEntry) : List HistoryEntry :=
  h ++ [e]

/-- The boot-time reconciliation scan of `post_init` (bot.py 905–929):
walk the persisted user records in order; for each user whose
`auto_claim_active` value is `true` and who has no live registered
task, spawn a task and register it.  `states` is the directory listing
as (user id, persisted flag value — `none` when the key is absent)
pairs, `reg` the ids with live tasks; the result is the list of user
ids for which a task was spawned, in order. -/
def post_init_reconcile : List (Int × Option Bool) → List Int → List Int
  | [], _ => []
  | p :: rest, reg =>
    if p.2 = some true ∧ p.1 ∉ reg then
      p.1 :: post_init_reconcile rest (p.1 :: reg)
    else
      post_init_reconcile rest reg

example :
    post_init_reconcile [(1, some true), (2, some false), (3, none), (4, some true)] []
      = [1, 4] := by decide
example :
    post_init_reconcile [(1, some true), (2, some true)] [1] = [2] := by decide
example :
    (core_autoclaim_start ⟨true, false, true, 1⟩).spawned = true := by decide
example :
    (core_autoclaim_stop ⟨true, true, true, 1⟩).st
      = AutoState.mk true false false 0 := by decide

/-- C2 counterexample: with a successful claim response, a pre-claim
silver balance of 5 and a post-claim silver balance of 3, the code
records a claimed silver delta of −2, whereas the claim's formula
`max(after − before, 0)` yields 0: the code does not clamp deltas. -/
theorem C2_counterexample :
    (core_claim_record (some ⟨some (JVal.jbool true)⟩) "ok" ⟨5, 0, 0⟩
        (some ⟨3, 0, 0⟩)).claimed_silver = -2 ∧
    max ((3 : Int) - 5) 0 = 0 ∧ ((-2 : Int) ≠ (0 : Int)) := by decide

/-- C2 (amended): for every claim attempt with balance snapshots before
and after, the recorded claimed delta for each tier equals
`after − before` (unclamped, possibly negative); a claim with no
balance change yields all-zero deltas and is still recorded in history
as success when the remote call reported success. -/
theorem C2_claimed_deltas (resp : Option ClaimApiResponse) (msg : String)
    (before after : Balances) (hs : claimSuccessful resp = true) :
    (core_claim_record resp msg before (some after)).claimed_silver
        = after.silver - before.silver ∧
    (core_claim_record resp msg before (some after)).claimed_gold
        = after.gold - before.gold ∧
    (core_claim_record resp msg before (some after)).claimed_diamond
        = after.diamond - before.diamond ∧
    (after = before →
      (core_claim_record resp msg before (some after)).claimed_silver = 0 ∧
      (core_claim_record resp msg before (some after)).claimed_gold = 0 ∧
      (core_claim_record resp msg before (some after)).claimed_diamond = 0 ∧
      (core_claim_record resp msg before (some after)).success = true) := by
  refine ⟨?_, ?_, ?_, ?_⟩ <;>
    simp [core_claim_record, hs]
  intro he
  simp [he]

/-- C2 witness: the amended statement at a concrete input with no
balance change — all deltas are 0 and the entry is a success. -/
theorem C2_claimed_deltas_witness :
    (core_claim_record (some ⟨some (JVal.jbool true)⟩) "m" ⟨1, 2, 3⟩
        (some ⟨1, 2, 3⟩)).claimed_silver = 0 ∧
    (core_claim_record (some ⟨some (JVal.jbool true)⟩) "m" ⟨1, 2, 3⟩
        (some ⟨1, 2, 3⟩)).claimed_gold = 0 ∧
    (core_claim_record (some ⟨some (JVal.jbool true)⟩) "m" ⟨1, 2, 3⟩
        (some ⟨1, 2, 3⟩)).claimed_diamond = 0 ∧
    (core_claim_record (some ⟨some (JVal.jbool true)⟩) "m" ⟨1, 2, 3⟩
        (some ⟨1, 2, 3⟩)).success = true :=
  (C2_claimed_deltas (some ⟨some (JVal.jbool true)⟩) "m" ⟨1, 2, 3⟩ ⟨1, 2, 3⟩
      rfl).2.2.2 rfl

/-- C9: the history entry records success = true exactly when the claim
response payload is present and its `data` field is a boolean with
value true; any other response yields success = false and all claimed
amounts zero. -/
theorem C9_success_iff (resp : Option ClaimApiResponse) (msg : String)
    (before : Balances) (afterFetch : Option Balances) :
    ((core_claim_record resp msg before afterFetch).success = true ↔
      ∃ r, resp = some r ∧ r.dataField = some (JVal.jbool true)) ∧
    ((core_claim_record resp msg before afterFetch).success = false →
      (core_claim_record resp msg before afterFetch).claimed_silver = 0 ∧
      (core_claim_record resp msg before afterFetch).claimed_gold = 0 ∧
      (core_claim_record resp msg before afterFetch).claimed_diamond = 0) := by
  constructor
  · show claimSuccessful resp = true ↔ _
    match resp with
    | none => simp [claimSuccessful]
    | some r =>
      match hr : r.dataField with
      | some (JVal.jbool b) => cases b <;> simp [claimSuccessful, hr]
      | some JVal.jother => simp [claimSuccessful, hr]
      | none => simp [claimSuccessful, hr]
  · intro hf
    have hs : claimSuccessful resp = false := hf
    simp [core_claim_record, hs]

/-- C9 witness: an HTTP 200 body whose `data` field is not a boolean is
recorded as not successful with zero claimed amounts. -/
theorem C9_success_iff_witness :
    (core_claim_record (some ⟨some JVal.jother⟩) "x" ⟨4, 5, 6⟩
        (some ⟨9, 9, 9⟩)).claimed_silver = 0 ∧
    (core_claim_record (some ⟨some JVal.jother⟩) "x" ⟨4, 5, 6⟩
        (some ⟨9, 9, 9⟩)).claimed_gold = 0 ∧
    (core_claim_record (some ⟨some JVal.jother⟩) "x" ⟨4, 5, 6⟩
        (some ⟨9, 9, 9⟩)).claimed_diamond = 0 :=
  (C9_success_iff (some ⟨some JVal.jother⟩) "x" ⟨4, 5, 6⟩
      (some ⟨9, 9, 9⟩)).2 rfl

/-- C10: a claim whose remote call reported success but whose
post-claim balance query returned no payload is still recorded with
success = true, zero per-tier claimed amounts, and totals equal to the
pre-claim snapshot. -/
theorem C10_missing_after_balances (resp : Option ClaimApiResponse)
    (msg : String) (before : Balances) (hs : claimSuccessful resp = true) :
    (core_claim_record resp msg before none).success = true ∧
    (core_claim_record resp msg before none).claimed_silver = 0 ∧
    (core_claim_record resp msg before none).claimed_gold = 0 ∧
    (core_claim_record resp msg before none).claimed_diamond = 0 ∧
    (core_claim_record resp msg before none).total_silver_after = before.silver ∧
    (core_claim_record resp msg before none).total_gold_after = before.gold ∧
    (core_claim_record resp msg before none).total_diamond_after = before.diamond := by
  refine ⟨hs, ?_, ?_, ?_, ?_, ?_, ?_⟩ <;> simp [core_claim_record, hs]

/-- C10 witness: the statement at a concrete successful response and
pre-claim snapshot (7, 8, 9). -/
theorem C10_missing_after_balances_witness :
    (core_claim_record (some ⟨some (JVal.jbool true)⟩) "m" ⟨7, 8, 9⟩
        none).success = true ∧
    (core_claim_record (some ⟨some (JVal.jbool true)⟩) "m" ⟨7, 8, 9⟩
        none).claimed_silver = 0 ∧
    (core_claim_record (some ⟨some (JVal.jbool true)⟩) "m" ⟨7, 8, 9⟩
        none).claimed_gold = 0 ∧
    (core_claim_record (some ⟨some (JVal.jbool true)⟩) "m" ⟨7, 8, 9⟩
        none).claimed_diamond = 0 ∧
    (core_claim_record (some ⟨some (JVal.jbool true)⟩) "m" ⟨7, 8, 9⟩
        none).total_silver_after = (7 : Int) ∧
    (core_claim_record (some ⟨some (JVal.jbool true)⟩) "m" ⟨7, 8, 9⟩
        none).total_gold_after = (8 : Int) ∧
    (core_claim_record (some ⟨some (JVal.jbool true)⟩) "m" ⟨7, 8, 9⟩
        none).total_diamond_after = (9 : Int) :=
  C10_missing_after_balances (some ⟨some (JVal.jbool true)⟩) "m" ⟨7, 8, 9⟩ rfl

/-- C1 counterexample: with `next_eligible_at = 1000` ms and
`now = 2000` ms (the window is already past), the code sleeps a
uniform[30,90]-second interval (bot.py 738), while the claim's rule
"remaining plus a uniform [10,45]-second jitter, floored at 0" gives
the interval [10,45]. -/
theorem C1_counterexample :
    waitSleepRange 1000 2000 = (30, 90) ∧
    sleepRangeClaimed 1000 2000 = (10, 45) ∧
    waitSleepRange 1000 2000 ≠ sleepRangeClaimed 1000 2000 := by
  norm_num [waitSleepRange, sleepRangeClaimed, remainingSec, Prod.ext_iff]

/-- C1 (amended): in an iteration where the eligibility check succeeds
with `is_claimable = false`, the sleep interval is a function of
`remaining = next_eligible_at − now`: uniform[25,35] minutes above one
hour, uniform[5,10] minutes between 15 minutes and one hour, remaining
plus uniform[10,45] seconds for a positive remaining of at most 15
minutes, uniform[30,90] seconds when the window is already past
(remaining ≤ 0 with `next_eligible_at > 0`), and uniform[5,10] minutes
when `next_eligible_at = 0` (unknown). -/
theorem C1_wait_buckets (nf now : Int) (r : RemoteResults)
    (hr : r.check = some ⟨false, nf⟩) (h401 : r.checkStatus ≠ some 401) :
    (loopIteration true true now r).sleepRange = some (waitSleepRange nf now) ∧
    (0 < nf → 3600 < remainingSec nf now →
        waitSleepRange nf now = (25 * 60, 35 * 60)) ∧
    (0 < nf → 15 * 60 < remainingSec nf now → remainingSec nf now ≤ 3600 →
        waitSleepRange nf now = (5 * 60, 10 * 60)) ∧
    (0 < nf → 0 < remainingSec nf now → remainingSec nf now ≤ 15 * 60 →
        waitSleepRange nf now
          = (remainingSec nf now + 10, remainingSec nf now + 45)) ∧
    (0 < nf → remainingSec nf now ≤ 0 → waitSleepRange nf now = (30, 90)) ∧
    (nf ≤ 0 → waitSleepRange nf now = (5 * 60, 10 * 60)) := by
  refine ⟨?_, ?_, ?_, ?_, ?_, ?_⟩
  · simp [loopIteration, hr, h401]
  · intro h0 hrem
    have hmax : max (0 : ℚ) (remainingSec nf now) = remainingSec nf now :=
      max_eq_right (by linarith)
    rw [waitSleepRange, if_pos h0, hmax, if_pos (by linarith), if_pos hrem]
  · intro h0 h15 h36
    have hmax : max (0 : ℚ) (remainingSec nf now) = remainingSec nf now :=
      max_eq_right (by linarith)
    rw [waitSleepRange, if_pos h0, hmax, if_pos (by linarith),
      if_neg (by linarith), if_pos h15]
  · intro h0 hpos h15
    have hmax : max (0 : ℚ) (remainingSec nf now) = remainingSec nf now :=
      max_eq_right (by linarith)
    rw [waitSleepRange, if_pos h0, hmax, if_pos hpos,
      if_neg (by linarith), if_neg (by linarith)]
  · intro h0 hpast
    have hmax : max (0 : ℚ) (remainingSec nf now) = 0 :=
      max_eq_left (by linarith)
    rw [waitSleepRange, if_pos h0, hmax, if_neg (by norm_num)]
  · intro h0
    rw [waitSleepRange, if_neg (by omega)]

/-- C1 witness: a not-claimable check with 500 seconds remaining sleeps
`remaining + uniform[10,45]` seconds, i.e. the interval [510, 545]. -/
theorem C1_wait_buckets_witness :
    (loopIteration true true 0
        ⟨some ⟨false, 500000⟩, some 200, none, none, "m", none, none⟩).sleepRange
      = some (waitSleepRange 500000 0) ∧
    waitSleepRange 500000 0 = (510, 545) := by
  have h := C1_wait_buckets 500000 0
      ⟨some ⟨false, 500000⟩, some 200, none, none, "m", none, none⟩
      rfl (by decide)
  refine ⟨h.1, ?_⟩
  have h4 := h.2.2.2.1 (by norm_num) (by norm_num [remainingSec])
      (by norm_num [remainingSec])
  rw [h4 ]
  norm_num [remainingSec, Prod.ext_iff]

/-- C3: in an iteration whose eligibility check returns HTTP 401, the
loop sends exactly one fatal notification, persists
`auto_claim_active = false`, terminates, and on exit its handle is
removed from the task registry. -/
theorem C3_check_unauthorized (now : Int) (uid : Int) (r : RemoteResults)
    (h : r.checkStatus = some 401) :
    (loopIteration true true now r).fatalNotifs = 1 ∧
    (loopIteration true true now r).activeAfter = false ∧
    (loopIteration true true now r).terminated = true ∧
    ∀ reg : List Int, reg.Nodup → uid ∉ taskCleanup reg uid := by
  refine ⟨by simp [loopIteration, h], by simp [loopIteration, h],
    by simp [loopIteration, h], ?_⟩
  intro reg hnd
  unfold taskCleanup
  split_ifs with hin
  · exact fun hc => ((hnd.mem_erase_iff).mp hc).1 rfl
  · exact hin

/-- C3 witness: the statement at a concrete 401 check result and the
registry [3, 7]. -/
theorem C3_check_unauthorized_witness :
    (loopIteration true true 0
        ⟨none, some 401, none, none, "m", none, none⟩).fatalNotifs = 1 ∧
    (loopIteration true true 0
        ⟨none, some 401, none, none, "m", none, none⟩).activeAfter = false ∧
    (loopIteration true true 0
        ⟨none, some 401, none, none, "m", none, none⟩).terminated = true ∧
    (7 : Int) ∉ taskCleanup [3, 7] 7 := by
  have h := C3_check_unauthorized 0 7
      ⟨none, some 401, none, none, "m", none, none⟩ rfl
  exact ⟨h.1, h.2.1, h.2.2.1, h.2.2.2 [3, 7] (by decide)⟩

/-- C7: in an iteration where the eligibility check yields no payload
and HTTP status 429, the loop does not terminate, sleeps a
uniform[45,75]-minute interval, stays active, and sends one
extended-wait notification. -/
theorem C7_rate_limited (now : Int) (r : RemoteResults)
    (hc : r.check = none) (hs : r.checkStatus = some 429) :
    (loopIteration true true now r).terminated = false ∧
    (loopIteration true true now r).sleepRange = some (45 * 60, 75 * 60) ∧
    (loopIteration true true now r).rateLimitNotifs = 1 ∧
    (loopIteration true true now r).activeAfter = true := by
  refine ⟨?_, ?_, ?_, ?_⟩ <;> simp [loopIteration, hc, hs]

/-- C7 witness: the statement at a concrete 429 check result. -/
theorem C7_rate_limited_witness :
    (loopIteration true true 0
        ⟨none, some 429, none, none, "m", none, none⟩).terminated = false ∧
    (loopIteration true true 0
        ⟨none, some 429, none, none, "m", none, none⟩).sleepRange
      = some (45 * 60, 75 * 60) ∧
    (loopIteration true true 0
        ⟨none, some 429, none, none, "m", none, none⟩).rateLimitNotifs = 1 ∧
    (loopIteration true true 0
        ⟨none, some 429, none, none, "m", none, none⟩).activeAfter = true :=
  C7_rate_limited 0 ⟨none, some 429, none, none, "m", none, none⟩ rfl rfl

/-- C4 counterexample: with a stored credential, a live task handle,
but `auto_claim_active = false` persisted, start is not a no-op: it
spawns a second task and mutates the state (bot.py line 790 requires
the persisted flag in the idempotence guard). -/
theorem C4_counterexample :
    (AutoState.mk true false true 1).hasToken = true ∧
    (AutoState.mk true false true 1).handleLive = true ∧
    (core_autoclaim_start ⟨true, false, true, 1⟩).spawned = true ∧
    (core_autoclaim_start ⟨true, false, true, 1⟩).st.liveTasks = 2 ∧
    (core_autoclaim_start ⟨true, false, true, 1⟩).st
      ≠ AutoState.mk true false true 1 := by decide

/-- C4 (amended): start is a no-op exactly when the persisted
`auto_claim_active` flag is true AND a live handle exists (a live
handle with the flag clear is overwritten by a fresh spawn); two
consecutive start calls from a state with no running task leave exactly
one live task; and without a stored credential start fails and changes
nothing. -/
theorem C4_start_idempotence (s : AutoState) :
    (s.hasToken = false → core_autoclaim_start s = ⟨s, false, true⟩) ∧
    (s.hasToken = true → s.active = true → s.handleLive = true →
        core_autoclaim_start s = ⟨s, false, false⟩) ∧
    (s.hasToken = true → s.handleLive = false → s.liveTasks = 0 →
        (core_autoclaim_start (core_autoclaim_start s).st).st.liveTasks = 1 ∧
        (core_autoclaim_start (core_autoclaim_start s).st).spawned = false) := by
  obtain ⟨t, a, hl, n⟩ := s
  refine ⟨?_, ?_, ?_⟩
  · intro ht; subst ht; simp [core_autoclaim_start]
  · intro ht ha hh; subst ht; subst ha; subst hh; simp [core_autoclaim_start]
  · intro ht hh hn; subst ht; subst hh; subst hn
    cases a <;> simp [core_autoclaim_start]

/-- C4 witness: starting twice from an idle credentialed state yields
exactly one live task and the second call spawns nothing. -/
theorem C4_start_idempotence_witness :
    (core_autoclaim_start
        (core_autoclaim_start ⟨true, false, false, 0⟩).st).st.liveTasks = 1 ∧
    (core_autoclaim_start
        (core_autoclaim_start ⟨true, false, false, 0⟩).st).spawned = false :=
  (C4_start_idempotence ⟨true, false, false, 0⟩).2.2 rfl rfl rfl

/-- C5: after stop returns, no live task handle exists and the
persisted `auto_claim_active` flag is false; when the flag is already
false and no live handle exists, stop is a no-op. -/
theorem C5_stop_deactivates (s : AutoState) :
    (core_autoclaim_stop s).st.handleLive = false ∧
    (core_autoclaim_stop s).st.active = false ∧
    (s.active = false → s.handleLive = false →
        core_autoclaim_stop s = ⟨s, true⟩) := by
  unfold core_autoclaim_stop
  split_ifs with h h2
  · exact ⟨h.2, h.1, fun _ _ => rfl⟩
  · exact ⟨rfl, rfl, fun ha hh => absurd ⟨ha, hh⟩ h⟩
  · exact ⟨rfl, rfl, fun ha hh => absurd ⟨ha, hh⟩ h⟩

/-- C5 witness: stop on an already-inactive state with no live handle
is a no-op. -/
theorem C5_stop_deactivates_witness :
    core_autoclaim_stop ⟨true, false, false, 0⟩
      = ⟨⟨true, false, false, 0⟩, true⟩ :=
  (C5_stop_deactivates ⟨true, false, false, 0⟩).2.2 rfl rfl

/-- C6: the history display slice has at most 10 entries and equals the
10 most recent entries most-recent-first; appending preserves every
prior entry at its position and grows the stored history by exactly
one, so the underlying store retains the full history unbounded. -/
theorem C6_history_slice (h : List HistoryEntry) (e : HistoryEntry) :
    (displayHistory h).length ≤ 10 ∧
    displayHistory h = h.reverse.take 10 ∧
    (appendHistory h e).take h.length = h ∧
    (appendHistory h e).length = h.length + 1 := by
  refine ⟨?_, ?_, ?_, ?_⟩
  · simp only [displayHistory, List.length_reverse, List.length_drop]
    omega
  · exact (List.take_reverse).symm
  · exact List.take_left h [e]
  · simp [appendHistory]

/-- C8: the boot-time reconciliation pass spawns exactly one task per
persisted user whose `auto_claim_active` flag is true and who has no
live task, and none for users whose flag is false or absent. -/
theorem C8_reconcile_spawns (states : List (Int × Option Bool))
    (reg : List Int) (hnd : (states.map Prod.fst).Nodup) :
    post_init_reconcile states reg
      = (states.filter
          (fun p => decide (p.2 = some true ∧ p.1 ∉ reg))).map Prod.fst := by
  induction states generalizing reg with
  | nil => simp [post_init_reconcile]
  | cons p rest ih =>
    simp only [List.map_cons, List.nodup_cons] at hnd
    obtain ⟨hp, hrest⟩ := hnd
    by_cases hc : p.2 = some true ∧ p.1 ∉ reg
    · rw [post_init_reconcile, if_pos hc, ih _ hrest]
      have hfilter :
          rest.filter (fun q => decide (q.2 = some true ∧ q.1 ∉ p.1 :: reg))
            = rest.filter (fun q => decide (q.2 = some true ∧ q.1 ∉ reg)) := by
        refine List.filter_congr ?_
        intro q hq
        have hne : q.1 ≠ p.1 := by
          intro he
          exact hp (he ▸ List.mem_map_of_mem Prod.fst hq)
        simp [List.mem_cons, hne]
      rw [hfilter]
      simp [List.filter_cons, hc]
    · rw [post_init_reconcile, if_neg hc, ih _ hrest]
      simp [List.filter_cons, hc]

/-- C8 witness: a restart with users 1 and 2 flagged active, user 3
flagged inactive, and no live tasks spawns exactly the two tasks for
users 1 and 2. -/
theorem C8_reconcile_spawns_witness :
    post_init_reconcile [(1, some true), (2, some true), (3, some false)] []
      = [1, 2] :=
  (C8_reconcile_spawns [(1, some true), (2, some true), (3, some false)] []
      (by decide)).trans (by decide)
